import Mathlib

/-!
Shallow embedding of the hybrid retrieval engine implemented in
`src/vector_store.py` (class `RetrievalEngine`) of the Agriculture-RAG-App
repository, together with theorems about its behaviour.

External statistical components (the FAISS vector store, the BM25
retriever and the cross-encoder re-ranker) are modelled as deterministic
oracles supplied through the `Models` structure; re-ranker scores are
modelled as rationals (a total linear order without NaN, standing in for
the float scores only ever used through comparisons).  The two Python
`re.search` calls are transcribed as leftmost-match scanning functions
over character lists, with `\s` read as ASCII whitespace and `\d` as
ASCII digits.  `pandas` rows are modelled as records of optional fields,
`none` standing for a missing/NaN value.
-/

/-- Transcription of the character class `[\s\.\-]` used as separator in
both registration-number regexes of `vector_store.py`. -/
def isSep (c : Char) : Bool :=
  c == ' ' || c == '\t' || c == '\n' || c == '\r' || c == '\x0B' || c == '\x0C' ||
  c == '.' || c == '-'

/-- Case-insensitive match of the literal `GSA` (the regexes are compiled
with `re.IGNORECASE`). -/
def isGsa (g s a : Char) : Bool :=
  (g == 'G' || g == 'g') && (s == 'S' || s == 's') && (a == 'A' || a == 'a')

/-- Numeric value of the maximal digit run at the head of the list,
accumulated into `acc`; this is the value Python's `int` assigns to the
digits captured by `(\d+)` (leading zeros, whether eaten by `0*` or kept
inside the group, do not change the integer). -/
def takeDigitsVal : List Char → Nat → Nat
  | c :: cs, acc => if c.isDigit then takeDigitsVal cs (10 * acc + (c.toNat - 48)) else acc
  | [], acc => acc

/-- Greedy consumption of `[\s\.\-]*` (separator run) after the `GSA`
prefix in the `search` regex `(?:GSA[\s\.\-]*)?0*(\d+)`. -/
def dropSeps : List Char → List Char
  | c :: cs => if isSep c then dropSeps cs else c :: cs
  | [] => []

/-- Consumption of the single optional separator `[\s\.\-]?` in the
`_normalize_regno` regex `(?:GSA[\s\.\-]?0*)?(\d+)`. -/
def dropOneSep : List Char → List Char
  | c :: cs => if isSep c then cs else c :: cs
  | [] => []

/-- Match of `0*(\d+)` at the current position: succeeds exactly when the
head is a digit, producing the integer value of the maximal digit run. -/
def headDigitVal : List Char → Option Nat
  | c :: cs => if c.isDigit then some (takeDigitsVal (c :: cs) 0) else none
  | [] => none

/-- Attempt of the `search` regex `(?:GSA[\s\.\-]*)?0*(\d+)` at the
current position with the optional `GSA` branch taken. -/
def matchGsaAt : List Char → Option Nat
  | g :: s :: a :: rest => if isGsa g s a then headDigitVal (dropSeps rest) else none
  | _ => none

/-- Attempt of the `_normalize_regno` regex `(?:GSA[\s\.\-]?0*)?(\d+)` at
the current position with the optional `GSA` branch taken. -/
def matchRegnoAt : List Char → Option Nat
  | g :: s :: a :: rest => if isGsa g s a then headDigitVal (dropOneSep rest) else none
  | _ => none

/-- Leftmost search of `(?:GSA[\s\.\-]*)?0*(\d+)` (line 173 of
`vector_store.py`), returning `int(m.group(1))`.  At each position the
engine first tries the optional `GSA` branch, then the bare digits. -/
def gsaSearch : List Char → Option Nat
  | [] => none
  | c :: cs =>
    match matchGsaAt (c :: cs) with
    | some n => some n
    | none =>
      match headDigitVal (c :: cs) with
      | some n => some n
      | none => gsaSearch cs

/-- Leftmost search of `(?:GSA[\s\.\-]?0*)?(\d+)` (line 43 of
`vector_store.py`), returning `int(m.group(1))`. -/
def regnoSearch : List Char → Option Nat
  | [] => none
  | c :: cs =>
    match matchRegnoAt (c :: cs) with
    | some n => some n
    | none =>
      match headDigitVal (c :: cs) with
      | some n => some n
      | none => regnoSearch cs

/-- Integer value of the first maximal run of digits in the list, if
any.  Reference definition used to characterise the two regex
searches. -/
def firstRunVal : List Char → Option Nat
  | [] => none
  | c :: cs => if c.isDigit then some (takeDigitsVal (c :: cs) 0) else firstRunVal cs

/-- The whitespace class stripped by Python `str.strip()`. -/
def isPySpace (c : Char) : Bool :=
  c == ' ' || c == '\t' || c == '\n' || c == '\r' || c == '\x0B' || c == '\x0C'

/-- Removal of leading whitespace. -/
def stripLeft : List Char → List Char
  | c :: cs => if isPySpace c then stripLeft cs else c :: cs
  | [] => []

/-- Python `str.strip()`: leading and trailing whitespace removed. -/
def pystrip (s : String) : String := ⟨(stripLeft (stripLeft s.data).reverse).reverse⟩

/-- Python `str.lower()` (ASCII approximation). -/
def pylower (s : String) : String := ⟨s.data.map Char.toLower⟩

/-- Python `str.title()` on ASCII text: a letter is uppercased when the
previous character is not a letter, lowercased otherwise. -/
def titleAux : Bool → List Char → List Char
  | _, [] => []
  | prevAlpha, c :: cs =>
    (if prevAlpha then c.toLower else c.toUpper) :: titleAux c.isAlpha cs

/-- Python `str.title()` (ASCII approximation). -/
def pytitle (s : String) : String := ⟨titleAux false s.data⟩

/-- The local helper `clean` of `RetrievalEngine.build_index` (lines
62-65): maps NaN, the empty string and the placeholder `"none"` to the
default, and otherwise strips and title-cases the value. -/
def clean (val : Option String) (dflt : String) : String :=
  match val with
  | none => dflt
  | some v => if v = "" || pylower v = "none" then dflt else pytitle (pystrip v)

/-- Python `a or b` on a string-or-None left operand, as used in the
narrative template `{reg_norm or reg_raw}` (line 82). -/
def pyOr (a : Option String) (b : String) : String :=
  match a with
  | some s => if s = "" then b else s
  | none => b

/-- `RetrievalEngine._normalize_regno` (lines 39-48).  The first
component is the normalized display string (`None` when the raw value is
falsy), the second the extracted integer code.  A falsy raw value
(Python `None` or the empty string) is modelled by the empty string. -/
def _normalize_regno (raw : String) : Option String × Option Int :=
  if raw = "" then (none, none)
  else
    let s := pystrip raw
    match regnoSearch s.data with
    | some n => (some ("GSA-" ++ toString n), some (n : Int))
    | none => (some s, none)

/-- One structured record (a row of the dataframe handed to
`build_index`); `none` models a missing/NaN cell. -/
structure Row where
  Registration_No : Option String
  Gaushala_Name : Option String
  District : Option String
  Village : Option String
  Status : Option String
  Cattle_Count : Int
  Contact_Person : Option String
  Phone_Number : Option String
deriving DecidableEq, Repr

/-- One indexed text unit: a LangChain `Document` with the metadata
fields `build_index` attaches (lines 95-100). -/
structure Doc where
  page_content : String
  row_id : Int
  district : String
  registration_no_digits : Int
  full_info : String
deriving DecidableEq, Repr

/-- The narrative template of `build_index` (lines 78-83): the single
identity/location sentence block built for every record. -/
def identityText (row : Row) : String :=
  "The " ++ clean row.Gaushala_Name "Unnamed Gaushala" ++
  " is a registered Gaushala (Cow Shelter) located in " ++
  clean row.Village "Unknown Village" ++
  ", which falls under the " ++ clean row.District "Unknown District" ++
  " district of Haryana. " ++
  "It is currently " ++ clean row.Status "Active" ++
  " and manages a total of " ++ toString row.Cattle_Count ++
  " cattle. Official Registration Number: " ++
  pyOr (_normalize_regno (row.Registration_No.getD "")).1 (row.Registration_No.getD "") ++
  ". "

/-- The contact sentence appended by `build_index` when a contact person
or phone number is present (lines 89-92). -/
def contactText (row : Row) : String :=
  " The primary contact person is " ++ clean row.Contact_Person "the manager" ++
  ", reachable at phone number " ++ clean row.Phone_Number "not listed" ++ "."

/-- The full `text_content` of the one document built per record: the
contact sentence is appended to the identity text, not emitted as a
separate document. -/
def pageText (row : Row) : String :=
  if row.Contact_Person.isSome || row.Phone_Number.isSome then
    identityText row ++ contactText row
  else identityText row

/-- The metadata field `registration_no_digits` (line 98): Python's
`reg_digits if reg_digits else -1` maps both `None` and `0` to `-1`. -/
def regnoDigitsMeta (row : Row) : Int :=
  match (_normalize_regno (row.Registration_No.getD "")).2 with
  | some d => if d = 0 then -1 else d
  | none => -1

/-- The single `Document` appended per dataframe row (lines 56-102). -/
def buildDoc (index : Int) (row : Row) : Doc :=
  { page_content := pageText row
    row_id := index
    district := clean row.District "Unknown District"
    registration_no_digits := regnoDigitsMeta row
    full_info := pageText row }

/-- The document list produced by the `for index, row in df.iterrows()`
loop of `build_index`: exactly one document per row, `row_id` being the
row's position. -/
def buildDocs (df : List Row) : List Doc :=
  df.enum.map (fun p => buildDoc (Int.ofNat p.1) p.2)

/-- Model of the FAISS vector store: `FAISS.from_documents` is
characterised by the document collection it was built from; its native
serialization (`save_local`/`load_local`) is modelled as lossless
transport of this value. -/
structure VectorStore where
  corpus : List Doc
deriving DecidableEq, Repr

/-- Model of `BM25Retriever.from_documents(...)` together with the `k`
attribute set right after construction. -/
structure BM25Store where
  corpus : List Doc
  k : Nat
deriving DecidableEq, Repr

/-- Model of `vector_store.as_retriever(search_kwargs={"k": 20})`. -/
structure FaissRetriever where
  store : VectorStore
  k : Nat
deriving DecidableEq, Repr

/-- The mutable fields of `RetrievalEngine` relevant to indexing and
search; `none` models a Python `None` (falsy) field. -/
structure Engine where
  documents : List Doc
  vector_store : Option VectorStore
  bm25_retriever : Option BM25Store
  faiss_retriever : Option FaissRetriever
deriving DecidableEq, Repr

/-- A freshly constructed `RetrievalEngine` (lines 20-25). -/
def freshEngine : Engine :=
  { documents := [], vector_store := none, bm25_retriever := none, faiss_retriever := none }

/-- Deterministic oracles for the external statistical components: BM25
retrieval, FAISS retrieval, and the cross-encoder pair score. -/
structure Models where
  bm25Invoke : BM25Store → String → List Doc
  faissInvoke : FaissRetriever → String → List Doc
  crossScore : String → String → Rat

/-- `RetrievalEngine.build_index` (lines 50-117).  `self.documents` is
reset and repopulated; on an empty result the method prints a warning
and returns, leaving every other field untouched (no exception is
raised).  Otherwise FAISS and BM25 (k = 30) are built and
`_refresh_retrievers` installs the FAISS retriever with k = 20. -/
def build_index (e : Engine) (df : List Row) : Engine :=
  let documents := buildDocs df
  if documents.isEmpty then { e with documents := [] }
  else
    let vs : VectorStore := { corpus := documents }
    { documents := documents
      vector_store := some vs
      bm25_retriever := some { corpus := documents, k := 30 }
      faiss_retriever := some { store := vs, k := 20 } }

/-- State of one persisted artifact at a folder path: absent from disk,
present but failing to deserialize, or present with its deserialized
value. -/
inductive Artifact (α : Type) where
  | missing
  | corrupt
  | stored (a : α)
deriving DecidableEq, Repr

/-- The on-disk bundle written at a folder path: the FAISS native files
and the pickled `documents.pkl`, each in one of the three artifact
states. -/
structure Bundle where
  faiss : Artifact VectorStore
  documents_pkl : Artifact (List Doc)
deriving DecidableEq, Repr

/-- `RetrievalEngine.save_local` (lines 125-138): the FAISS index is
written only when present; the document list is always pickled. -/
def save_local (e : Engine) (b : Bundle) : Bundle :=
  let b := match e.vector_store with
    | some vs => { b with faiss := Artifact.stored vs }
    | none => b
  { b with documents_pkl := Artifact.stored e.documents }

/-- The exceptions a load can raise: `FAISS.load_local` raises when its
artifact is missing or unreadable (line 146); `pickle.load` raises when
`documents.pkl` exists but fails to deserialize (line 156). -/
inductive LoadError where
  | corruptFaiss
  | corruptPickle
deriving DecidableEq, Repr

/-- `RetrievalEngine.load_local` (lines 140-164).  `FAISS.load_local`
raises when its artifact is missing or corrupt, before
`self.vector_store` is assigned, so the error carries the engine
unchanged.  Otherwise the vector store is installed; then a
`documents.pkl` that exists but fails to deserialize makes
`pickle.load` raise at line 156 - the error carries the engine as
mutated so far (vector store installed; documents, BM25 and the FAISS
retriever untouched, `_refresh_retrievers` never reached) - while a
missing `documents.pkl` is merely warned about (documents and BM25 keep
their previous values) and `_refresh_retrievers` still runs. -/
def load_local (e : Engine) (b : Bundle) : Except (LoadError × Engine) Engine :=
  match b.faiss with
  | Artifact.missing => Except.error (LoadError.corruptFaiss, e)
  | Artifact.corrupt => Except.error (LoadError.corruptFaiss, e)
  | Artifact.stored vs =>
    let e := { e with vector_store := some vs }
    match b.documents_pkl with
    | Artifact.stored docs =>
      Except.ok
        { e with
          documents := docs
          bm25_retriever := some { corpus := docs, k := 30 }
          faiss_retriever := some { store := vs, k := 20 } }
    | Artifact.corrupt => Except.error (LoadError.corruptPickle, e)
    | Artifact.missing =>
      Except.ok { e with faiss_retriever := some { store := vs, k := 20 } }

/-- The merge-and-deduplicate loop of `search` (lines 191-198): first
occurrence of each `page_content` wins, order preserved. -/
def dedupAux (seen : List String) : List Doc → List Doc
  | [] => []
  | d :: ds =>
    if d.page_content ∈ seen then dedupAux seen ds
    else d :: dedupAux (d.page_content :: seen) ds

/-- Deduplication by `page_content` of the concatenated hit lists. -/
def dedupByContent (ds : List Doc) : List Doc := dedupAux [] ds

/-- Stable descending insertion by score, modelling one step of Python's
stable `sorted(..., key=lambda x: x[1], reverse=True)`. -/
def insertByScoreDesc (p : Doc × Rat) : List (Doc × Rat) → List (Doc × Rat)
  | [] => [p]
  | q :: qs => if q.2 ≤ p.2 then p :: q :: qs else q :: insertByScoreDesc p qs

/-- Stable descending sort by score (line 210). -/
def sortByScoreDesc : List (Doc × Rat) → List (Doc × Rat)
  | [] => []
  | x :: xs => insertByScoreDesc x (sortByScoreDesc xs)

/-- The FAISS hits of `search` (lines 187-189): queried only when the
retriever is set. -/
def faissHits (M : Models) (e : Engine) (q : String) : List Doc :=
  match e.faiss_retriever with
  | some fr => M.faissInvoke fr q
  | none => []

/-- The deduplicated union of BM25 and FAISS hits (lines 185-198). -/
def candidateUnion (M : Models) (e : Engine) (bm : BM25Store) (q : String) : List Doc :=
  dedupByContent (M.bm25Invoke bm q ++ faissHits M e q)

/-- `candidate_docs = candidate_docs[:20]` (line 203). -/
def truncatedCandidates (M : Models) (e : Engine) (bm : BM25Store) (q : String) : List Doc :=
  (candidateUnion M e bm q).take 20

/-- The `(query, page_content)` pairs handed to the cross encoder
(line 206) - built from the already truncated candidate list. -/
def rerankInput (M : Models) (e : Engine) (bm : BM25Store) (q : String) :
    List (String × String) :=
  (truncatedCandidates M e bm q).map (fun d => (q, d.page_content))

/-- `scores = self.cross_encoder.predict(pairs)` (line 207), one score
per pair in order. -/
def rerankScores (M : Models) (e : Engine) (bm : BM25Store) (q : String) : List Rat :=
  (rerankInput M e bm q).map (fun p => M.crossScore p.1 p.2)

/-- `scored_docs = sorted(zip(candidate_docs, scores), ...)` (line 210). -/
def scoredSorted (M : Models) (e : Engine) (bm : BM25Store) (q : String) :
    List (Doc × Rat) :=
  sortByScoreDesc ((truncatedCandidates M e bm q).zip (rerankScores M e bm q))

/-- The fixed relevance threshold of line 213 (`score > -5.0`). -/
def relevanceThreshold : Rat := -5

/-- `final_results = [doc for doc, score in scored_docs if score > -5.0]`
(line 213), kept with their scores. -/
def thresholdSurvivors (M : Models) (e : Engine) (bm : BM25Store) (q : String) :
    List (Doc × Rat) :=
  (scoredSorted M e bm q).filter (fun p => p.2 > relevanceThreshold)

/-- The in-memory exact metadata lookup of the identifier fast path
(lines 178-179). -/
def metaHits (e : Engine) (n : Nat) : List Doc :=
  e.documents.filter (fun d => d.registration_no_digits = (n : Int))

/-- Python `"sep".join(strs)`. -/
def joinSep (sep : String) : List String → String
  | [] => ""
  | [a] => a
  | a :: rest => a ++ sep ++ joinSep sep rest

/-- The exact-match result formatting of line 181. -/
def exactRender (ds : List Doc) : String :=
  joinSep "\n\n" (ds.map (fun d => "🎯 EXACT METADATA MATCH:\n" ++ d.page_content))

/-- The final result formatting of line 220:
`"\n\n".join(f"[Result {i+1}]\n{d.page_content}" for i, d in enumerate(final_results[:5]))`. -/
def renderResults (ds : List Doc) : String :=
  joinSep "\n\n" ((ds.take 5).enum.map
    (fun p => "[Result " ++ toString (p.1 + 1) ++ "]\n" ++ p.2.page_content))

/-- The identifier fast path of `search` (lines 171-181): when the regex
matches and the exact metadata lookup is non-empty, the first three hits
are rendered and returned; otherwise control falls through. -/
def fastPath (e : Engine) (q : String) : Option String :=
  match gsaSearch q.data with
  | some n =>
    if (metaHits e n).isEmpty then none
    else some (exactRender ((metaHits e n).take 3))
  | none => none

/-- The hybrid branch of `search` (lines 183-220): dedup union, empty
check, truncation, re-rank, sort, threshold filter, raw-top-2 fallback,
rendering capped at 5. -/
def hybridResult (M : Models) (e : Engine) (bm : BM25Store) (q : String) : String :=
  if (candidateUnion M e bm q).isEmpty then "No info found."
  else if ((thresholdSurvivors M e bm q).map Prod.fst).isEmpty then
    renderResults ((truncatedCandidates M e bm q).take 2)
  else
    renderResults ((thresholdSurvivors M e bm q).map Prod.fst)

/-- `RetrievalEngine.search` (lines 166-220). -/
def search (M : Models) (e : Engine) (q : String) : String :=
  match e.vector_store, e.bm25_retriever with
  | some _, some bm =>
    match fastPath e q with
    | some r => r
    | none => hybridResult M e bm q
  | _, _ => "Error: Index not initialized."

/-- Oracles returning no hits and score `0`; used for concrete
instantiations of the theorems below. -/
def emptyModels : Models :=
  { bm25Invoke := fun _ _ => [], faissInvoke := fun _ _ => [], crossScore := fun _ _ => 0 }

/-- A handcrafted text unit for concrete test corpora. -/
def testDoc (pc : String) (rid : Int) (digits : Int) : Doc :=
  { page_content := pc, row_id := rid, district := "", registration_no_digits := digits,
    full_info := pc }

/-- Test units. `docA` .. `docD` share registration code 7 (four
exact-metadata matches); they also serve as generic distinct units. -/
def docA : Doc := testDoc "A" 0 7
def docB : Doc := testDoc "B" 1 7
def docC : Doc := testDoc "C" 2 7
def docD : Doc := testDoc "D" 3 7

/-- Engine indexing four text units whose metadata code is 7. -/
def engine7 : Engine :=
  { documents := [docA, docB, docC, docD]
    vector_store := some { corpus := [docA, docB, docC, docD] }
    bm25_retriever := some { corpus := [docA, docB, docC, docD], k := 30 }
    faiss_retriever := none }

/-- Test units with registration codes 14 and 4314 (the regression
scenario of the specification). -/
def doc14 : Doc := testDoc "Record fourteen" 0 14
def doc4314 : Doc := testDoc "Record fortythree-fourteen" 1 4314
def vs14 : VectorStore := { corpus := [doc14, doc4314] }
def bm14 : BM25Store := { corpus := [doc14, doc4314], k := 30 }
def engine14 : Engine :=
  { documents := [doc14, doc4314], vector_store := some vs14,
    bm25_retriever := some bm14, faiss_retriever := some { store := vs14, k := 20 } }

/-- BM25 store over `docA`, `docB`, `docC`. -/
def bm3 : BM25Store := { corpus := [docA, docB, docC], k := 30 }

/-- Engine over `docA`, `docB`, `docC`. -/
def engine3 : Engine :=
  { documents := [docA, docB, docC]
    vector_store := some { corpus := [docA, docB, docC] }
    bm25_retriever := some bm3
    faiss_retriever := none }

/-- Oracles whose re-ranker puts every candidate below the threshold,
with candidate `C` scored strictly best. -/
def models3 : Models :=
  { bm25Invoke := fun _ _ => [docA, docB, docC]
    faissInvoke := fun _ _ => []
    crossScore := fun _ c => if c = "A" then -10 else if c = "B" then -9 else -6 }

/-- BM25 store over `docA`, `docB`. -/
def bm8 : BM25Store := { corpus := [docA, docB], k := 30 }

/-- Engine over `docA`, `docB`. -/
def engine8 : Engine :=
  { documents := [docA, docB]
    vector_store := some { corpus := [docA, docB] }
    bm25_retriever := some bm8
    faiss_retriever := none }

/-- Oracles with above-threshold scores, `B` scored better than `A`. -/
def models8 : Models :=
  { bm25Invoke := fun _ _ => [docA, docB]
    faissInvoke := fun _ _ => []
    crossScore := fun _ c => if c = "A" then 1 else 2 }

/-- `i`-th of 21 pairwise distinct text units. -/
def testDocN (i : Nat) : Doc := testDoc ("c" ++ toString i) (Int.ofNat i) (-1)

/-- 21 pairwise distinct text units: a deduplicated union larger than
the truncation bound 20. -/
def docs21 : List Doc := (List.range 21).map testDocN

def bm21 : BM25Store := { corpus := docs21, k := 30 }

def engine21 : Engine :=
  { documents := docs21
    vector_store := some { corpus := docs21 }
    bm25_retriever := some bm21
    faiss_retriever := none }

/-- Oracles returning all 21 units from BM25. -/
def models21 : Models :=
  { bm25Invoke := fun _ _ => docs21, faissInvoke := fun _ _ => [],
    crossScore := fun _ _ => 0 }

/-- A row carrying registration code 14 and no contact data. -/
def row14 : Row :=
  { Registration_No := some "GSA-14", Gaushala_Name := some "Shanti Gaushala",
    District := some "Ambala", Village := some "Rampur", Status := some "Active",
    Cattle_Count := 42, Contact_Person := none, Phone_Number := none }

/-- A row carrying contact data (both name and phone non-null). -/
def rowContact : Row :=
  { Registration_No := some "GSA-15", Gaushala_Name := some "Kamdhenu Gaushala",
    District := some "Ambala", Village := some "Rampur", Status := some "Active",
    Cattle_Count := 10, Contact_Person := some "Ramesh", Phone_Number := some "9876543210" }

/-- A bundle with neither artifact present. -/
def emptyBundle : Bundle :=
  { faiss := Artifact.missing, documents_pkl := Artifact.missing }

def vsX : VectorStore := { corpus := [docA] }

/-- A bundle whose FAISS artifact is present but whose `documents.pkl`
is missing. -/
def bundleNoDocs : Bundle :=
  { faiss := Artifact.stored vsX, documents_pkl := Artifact.missing }

/-- A bundle whose FAISS artifact is present but whose `documents.pkl`
is present and fails to deserialize. -/
def bundleCorruptDocs : Bundle :=
  { faiss := Artifact.stored vsX, documents_pkl := Artifact.corrupt }

theorem isSep_not_digit {c : Char} (h : isSep c = true) : c.isDigit = false := by
  simp only [isSep, Bool.or_eq_true, beq_iff_eq] at h
  rcases h with ((((((h | h) | h) | h) | h) | h) | h) | h <;> subst h <;> decide

theorem isGsa_not_digit {g s a : Char} (h : isGsa g s a = true) :
    g.isDigit = false ∧ s.isDigit = false ∧ a.isDigit = false := by
  simp only [isGsa, Bool.and_eq_true, Bool.or_eq_true, beq_iff_eq] at h
  obtain ⟨⟨hg, hs⟩, ha⟩ := h
  refine ⟨?_, ?_, ?_⟩
  · rcases hg with h | h <;> subst h <;> decide
  · rcases hs with h | h <;> subst h <;> decide
  · rcases ha with h | h <;> subst h <;> decide

theorem headDigitVal_firstRunVal {l : List Char} {n : Nat}
    (h : headDigitVal l = some n) : firstRunVal l = some n := by
  cases l with
  | nil => simp [headDigitVal] at h
  | cons c cs =>
    cases hd : c.isDigit with
    | true =>
      rw [headDigitVal, if_pos hd] at h
      rw [firstRunVal, if_pos hd]
      exact h
    | false => rw [headDigitVal, if_neg (by simp [hd])] at h; exact absurd h (by simp)

theorem firstRunVal_cons_not_digit {c : Char} {cs : List Char}
    (h : c.isDigit = false) : firstRunVal (c :: cs) = firstRunVal cs := by
  rw [firstRunVal, if_neg (by simp [h])]

theorem firstRunVal_dropSeps (l : List Char) :
    firstRunVal (dropSeps l) = firstRunVal l := by
  induction l with
  | nil => rfl
  | cons c cs ih =>
    cases hs : isSep c with
    | true =>
      rw [dropSeps, if_pos hs, ih, firstRunVal_cons_not_digit (isSep_not_digit hs)]
    | false => rw [dropSeps, if_neg (by simp [hs])]

theorem firstRunVal_dropOneSep (l : List Char) :
    firstRunVal (dropOneSep l) = firstRunVal l := by
  cases l with
  | nil => rfl
  | cons c cs =>
    cases hs : isSep c with
    | true =>
      rw [dropOneSep, if_pos hs, firstRunVal_cons_not_digit (isSep_not_digit hs)]
    | false => rw [dropOneSep, if_neg (by simp [hs])]

theorem gsaSearch_eq_firstRunVal (l : List Char) : gsaSearch l = firstRunVal l := by
  induction l with
  | nil => rfl
  | cons c cs ih =>
    rcases cs with _ | ⟨s, cs'⟩
    · cases hd : c.isDigit with
      | true => simp [gsaSearch, matchGsaAt, headDigitVal, hd, firstRunVal]
      | false => simp [gsaSearch, matchGsaAt, headDigitVal, hd, firstRunVal]
    · rcases cs' with _ | ⟨a, rest⟩
      · cases hd : c.isDigit with
        | true => simp [gsaSearch, matchGsaAt, headDigitVal, hd, firstRunVal]
        | false =>
          rw [gsaSearch]
          simp only [matchGsaAt, headDigitVal, hd, if_neg (by simp [hd] : ¬c.isDigit = true)]
          rw [firstRunVal_cons_not_digit hd]
          exact ih
      · cases hg : isGsa c s a with
        | true =>
          obtain ⟨hcd, hsd, had⟩ := isGsa_not_digit hg
          cases hh : headDigitVal (dropSeps rest) with
          | some n =>
            have h1 : firstRunVal rest = some n := by
              rw [← firstRunVal_dropSeps]
              exact headDigitVal_firstRunVal hh
            rw [gsaSearch]
            simp only [matchGsaAt, if_pos hg, hh]
            rw [firstRunVal_cons_not_digit hcd, firstRunVal_cons_not_digit hsd,
              firstRunVal_cons_not_digit had, h1]
          | none =>
            rw [gsaSearch]
            simp only [matchGsaAt, if_pos hg, hh]
            simp only [headDigitVal, if_neg (by simp [hcd] : ¬c.isDigit = true)]
            rw [firstRunVal_cons_not_digit hcd]
            exact ih
        | false =>
          cases hd : c.isDigit with
          | true =>
            rw [gsaSearch]
            simp only [matchGsaAt, if_neg (by simp [hg] : ¬isGsa c s a = true)]
            simp only [headDigitVal, if_pos hd]
            rw [firstRunVal, if_pos hd]
          | false =>
            rw [gsaSearch]
            simp only [matchGsaAt, if_neg (by simp [hg] : ¬isGsa c s a = true)]
            simp only [headDigitVal, if_neg (by simp [hd] : ¬c.isDigit = true)]
            rw [firstRunVal_cons_not_digit hd]
            exact ih

theorem regnoSearch_eq_firstRunVal (l : List Char) : regnoSearch l = firstRunVal l := by
  induction l with
  | nil => rfl
  | cons c cs ih =>
    rcases cs with _ | ⟨s, cs'⟩
    · cases hd : c.isDigit with
      | true => simp [regnoSearch, matchRegnoAt, headDigitVal, hd, firstRunVal]
      | false => simp [regnoSearch, matchRegnoAt, headDigitVal, hd, firstRunVal]
    · rcases cs' with _ | ⟨a, rest⟩
      · cases hd : c.isDigit with
        | true => simp [regnoSearch, matchRegnoAt, headDigitVal, hd, firstRunVal]
        | false =>
          rw [regnoSearch]
          simp only [matchRegnoAt, headDigitVal, hd, if_neg (by simp [hd] : ¬c.isDigit = true)]
          rw [firstRunVal_cons_not_digit hd]
          exact ih
      · cases hg : isGsa c s a with
        | true =>
          obtain ⟨hcd, hsd, had⟩ := isGsa_not_digit hg
          cases hh : headDigitVal (dropOneSep rest) with
          | some n =>
            have h1 : firstRunVal rest = some n := by
              rw [← firstRunVal_dropOneSep]
              exact headDigitVal_firstRunVal hh
            rw [regnoSearch]
            simp only [matchRegnoAt, if_pos hg, hh]
            rw [firstRunVal_cons_not_digit hcd, firstRunVal_cons_not_digit hsd,
              firstRunVal_cons_not_digit had, h1]
          | none =>
            rw [regnoSearch]
            simp only [matchRegnoAt, if_pos hg, hh]
            simp only [headDigitVal, if_neg (by simp [hcd] : ¬c.isDigit = true)]
            rw [firstRunVal_cons_not_digit hcd]
            exact ih
        | false =>
          cases hd : c.isDigit with
          | true =>
            rw [regnoSearch]
            simp only [matchRegnoAt, if_neg (by simp [hg] : ¬isGsa c s a = true)]
            simp only [headDigitVal, if_pos hd]
            rw [firstRunVal, if_pos hd]
          | false =>
            rw [regnoSearch]
            simp only [matchRegnoAt, if_neg (by simp [hg] : ¬isGsa c s a = true)]
            simp only [headDigitVal, if_neg (by simp [hd] : ¬c.isDigit = true)]
            rw [firstRunVal_cons_not_digit hd]
            exact ih

theorem dedupAux_subset {seen : List String} {ds : List Doc} {d : Doc}
    (h : d ∈ dedupAux seen ds) : d ∈ ds := by
  induction ds generalizing seen with
  | nil => simp [dedupAux] at h
  | cons x xs ih =>
    by_cases hx : x.page_content ∈ seen
    · rw [dedupAux, if_pos hx] at h
      exact List.mem_cons_of_mem _ (ih h)
    · rw [dedupAux, if_neg hx] at h
      rcases List.mem_cons.mp h with rfl | h
      · exact List.mem_cons_self _ _
      · exact List.mem_cons_of_mem _ (ih h)

theorem dedupAux_not_seen {seen : List String} {ds : List Doc} {d : Doc}
    (h : d ∈ dedupAux seen ds) : d.page_content ∉ seen := by
  induction ds generalizing seen with
  | nil => simp [dedupAux] at h
  | cons x xs ih =>
    by_cases hx : x.page_content ∈ seen
    · rw [dedupAux, if_pos hx] at h
      exact ih h
    · rw [dedupAux, if_neg hx] at h
      rcases List.mem_cons.mp h with rfl | h
      · exact hx
      · intro hc
        exact ih h (List.mem_cons_of_mem _ hc)

theorem dedupAux_pairwise (seen : List String) (ds : List Doc) :
    (dedupAux seen ds).Pairwise (fun a b => a.page_content ≠ b.page_content) := by
  induction ds generalizing seen with
  | nil => simp [dedupAux]
  | cons x xs ih =>
    by_cases hx : x.page_content ∈ seen
    · rw [dedupAux, if_pos hx]
      exact ih seen
    · rw [dedupAux, if_neg hx]
      refine List.Pairwise.cons ?_ (ih _)
      intro b hb he
      apply dedupAux_not_seen hb
      rw [← he]
      exact List.mem_cons_self _ _

theorem insertByScoreDesc_perm (p : Doc × Rat) (l : List (Doc × Rat)) :
    List.Perm (insertByScoreDesc p l) (p :: l) := by
  induction l with
  | nil => exact List.Perm.refl _
  | cons q qs ih =>
    by_cases h : q.2 ≤ p.2
    · rw [insertByScoreDesc, if_pos h]
    · rw [insertByScoreDesc, if_neg h]
      exact (ih.cons q).trans (List.Perm.swap _ _ _)

theorem sortByScoreDesc_perm (l : List (Doc × Rat)) :
    List.Perm (sortByScoreDesc l) l := by
  induction l with
  | nil => exact List.Perm.refl _
  | cons x xs ih => exact (insertByScoreDesc_perm x _).trans (ih.cons x)

theorem mem_insertByScoreDesc {x p : Doc × Rat} {l : List (Doc × Rat)} :
    x ∈ insertByScoreDesc p l ↔ x = p ∨ x ∈ l := by
  rw [(insertByScoreDesc_perm p l).mem_iff, List.mem_cons]

theorem insertByScoreDesc_pairwise {p : Doc × Rat} {l : List (Doc × Rat)}
    (h : l.Pairwise (fun a b => b.2 ≤ a.2)) :
    (insertByScoreDesc p l).Pairwise (fun a b => b.2 ≤ a.2) := by
  induction l with
  | nil => simp [insertByScoreDesc]
  | cons q qs ih =>
    rcases List.pairwise_cons.mp h with ⟨hq, hqs⟩
    by_cases hle : q.2 ≤ p.2
    · rw [insertByScoreDesc, if_pos hle]
      refine List.Pairwise.cons ?_ h
      intro b hb
      rcases List.mem_cons.mp hb with rfl | hb
      · exact hle
      · exact le_trans (hq b hb) hle
    · rw [insertByScoreDesc, if_neg hle]
      refine List.Pairwise.cons ?_ (ih hqs)
      intro b hb
      rcases mem_insertByScoreDesc.mp hb with rfl | hb
      · exact le_of_not_le hle
      · exact hq b hb

theorem sortByScoreDesc_pairwise (l : List (Doc × Rat)) :
    (sortByScoreDesc l).Pairwise (fun a b => b.2 ≤ a.2) := by
  induction l with
  | nil => simp [sortByScoreDesc]
  | cons x xs ih =>
    rw [sortByScoreDesc]
    exact insertByScoreDesc_pairwise ih

theorem eq_of_pairwise_map_ne {α β : Type} {f : α → β} {l : List α}
    (hl : l.Pairwise (fun a b => f a ≠ f b)) :
    ∀ {a}, a ∈ l → ∀ {b}, b ∈ l → f a = f b → a = b := by
  induction hl with
  | nil => intro a ha; simp at ha
  | cons hhead htail ih =>
    intro a ha b hb hf
    rcases List.mem_cons.mp ha with ha' | ha'
    · rcases List.mem_cons.mp hb with hb' | hb'
      · rw [ha', hb']
      · rw [ha'] at hf ⊢
        exact absurd hf (hhead b hb')
    · rcases List.mem_cons.mp hb with hb' | hb'
      · rw [hb'] at hf ⊢
        exact absurd hf.symm (hhead a ha')
      · exact ih ha' hb' hf

theorem pairwise_zip_fst {α β : Type} {R : α → α → Prop} :
    ∀ (l : List α) (s : List β), l.Pairwise R →
      (l.zip s).Pairwise (fun p q => R p.1 q.1)
  | [], _, _ => by simp
  | _ :: _, [], _ => by simp
  | a :: l, b :: s, h => by
    rcases List.pairwise_cons.mp h with ⟨hhead, htail⟩
    rw [List.zip_cons_cons]
    refine List.Pairwise.cons ?_ (pairwise_zip_fst l s htail)
    rintro ⟨q1, q2⟩ hq
    exact hhead q1 (List.of_mem_zip hq).1

theorem joinSep_cons_length (sep a : String) (l : List String) :
    a.length ≤ (joinSep sep (a :: l)).length := by
  cases l with
  | nil => simp [joinSep]
  | cons b t =>
    simp only [joinSep, String.length_append]
    omega

theorem renderResults_ne_empty (d : Doc) (ds : List Doc) :
    renderResults (d :: ds) ≠ "" := by
  intro h
  rw [renderResults] at h
  rw [show ((d :: ds).take 5) = d :: ds.take 4 from rfl] at h
  rw [show (d :: ds.take 4).enum = (0, d) :: (ds.take 4).enumFrom 1 from rfl] at h
  rw [List.map_cons] at h
  have hlen := joinSep_cons_length "\n\n"
    ("[Result " ++ toString (0 + 1) ++ "]\n" ++ d.page_content)
    (((ds.take 4).enumFrom 1).map
      (fun p => "[Result " ++ toString (p.1 + 1) ++ "]\n" ++ p.2.page_content))
  rw [h] at hlen
  have h8 : ("[Result " : String).length = 8 := rfl
  have h0 : ("" : String).length = 0 := rfl
  rw [h0, String.length_append, String.length_append, String.length_append, h8] at hlen
  omega

theorem fastPath_hit (e : Engine) (q : String) (n : Nat)
    (hm : gsaSearch q.data = some n) (hne : metaHits e n ≠ []) :
    fastPath e q = some (exactRender ((metaHits e n).take 3)) := by
  have hempty : (metaHits e n).isEmpty = false := by
    rcases h : metaHits e n with _ | ⟨d, t⟩
    · exact absurd h hne
    · rfl
  unfold fastPath
  rw [hm]
  simp [hempty]

theorem search_fast_path_eq (M : Models) (e : Engine) (vs : VectorStore) (bm : BM25Store)
    (q : String) (n : Nat)
    (hvs : e.vector_store = some vs) (hbm : e.bm25_retriever = some bm)
    (hm : gsaSearch q.data = some n) (hne : metaHits e n ≠ []) :
    search M e q = exactRender ((metaHits e n).take 3) := by
  unfold search
  rw [hvs, hbm, fastPath_hit e q n hm hne]

theorem search_hybrid_eq (M : Models) (e : Engine) (vs : VectorStore) (bm : BM25Store)
    (q : String)
    (hvs : e.vector_store = some vs) (hbm : e.bm25_retriever = some bm)
    (hfp : fastPath e q = none) :
    search M e q = hybridResult M e bm q := by
  unfold search
  rw [hvs, hbm, hfp]

/-- C9 counterexample: `_normalize_regno` does not return the original
string paired with null on digit-free inputs.  On the empty string it
returns `(None, None)` rather than `("", None)`, and on a digit-free
string with surrounding whitespace it returns the stripped string, not
the original. -/
theorem C9_counterexample :
    _normalize_regno "" = (none, none) ∧
    _normalize_regno "" ≠ (some "", none) ∧
    _normalize_regno " GShala " = (some "GShala", none) ∧
    _normalize_regno " GShala " ≠ (some " GShala ", none) := by
  refine ⟨by decide, by decide, by decide, by decide⟩

/-- C9 (amended): `_normalize_regno` is total and characterised by the
first run of digits.  For a falsy (empty) input it returns
`(None, None)`; for a non-empty input whose stripped form contains
digits with first-run value `n` it returns `("GSA-" ++ n, n)`; for a
non-empty digit-free input it returns the stripped string paired with
null.  In particular the optional `GSA` prefix of the regex never
changes the extracted integer. -/
theorem C9_normalize_characterisation (raw : String) :
    _normalize_regno raw =
      if raw = "" then (none, none)
      else
        match firstRunVal (pystrip raw).data with
        | some n => (some ("GSA-" ++ toString n), some (n : Int))
        | none => (some (pystrip raw), none) := by
  unfold _normalize_regno
  simp only [regnoSearch_eq_firstRunVal]

/-- C1 counterexample: with four indexed text units all carrying
metadata code 7, `search "7"` returns only the first three of the
exact-metadata matches - not all of them, as the claim states. -/
theorem C1_counterexample :
    metaHits engine7 7 = [docA, docB, docC, docD] ∧
    search emptyModels engine7 "7" = exactRender [docA, docB, docC] ∧
    exactRender [docA, docB, docC] ≠ exactRender [docA, docB, docC, docD] := by
  refine ⟨rfl, rfl, by decide⟩

/-- C1 (amended): when the identifier regex matches the query with
extracted integer `n` and the exact metadata lookup is non-empty,
`search` returns the first (up to) three exact-metadata matches,
formatted as exact-match results, and its output is independent of the
lexical index, the semantic index and the re-ranker (the same result is
produced under any oracles `M`, `M'`). -/
theorem C1_exact_fast_path (M M' : Models) (e : Engine) (vs : VectorStore)
    (bm : BM25Store) (q : String) (n : Nat)
    (hvs : e.vector_store = some vs) (hbm : e.bm25_retriever = some bm)
    (hm : gsaSearch q.data = some n) (hne : metaHits e n ≠ []) :
    search M e q = exactRender ((metaHits e n).take 3) ∧
    search M e q = search M' e q := by
  have h1 := search_fast_path_eq M e vs bm q n hvs hbm hm hne
  have h2 := search_fast_path_eq M' e vs bm q n hvs hbm hm hne
  exact ⟨h1, h1.trans h2.symm⟩

/-- C1 witness: the regression scenario - two records with codes 14 and
4314; the query `"GSA-0014"` hits the fast path and returns only the
code-14 record (`metaHits engine14 14 = [doc14]`), under any oracles. -/
theorem C1_witness :
    search emptyModels engine14 "GSA-0014" = exactRender ((metaHits engine14 14).take 3) ∧
    search emptyModels engine14 "GSA-0014" = search models8 engine14 "GSA-0014" :=
  C1_exact_fast_path emptyModels models8 engine14 vs14 bm14 "GSA-0014" 14 rfl rfl
    (by decide) (by decide)

/-- C10: the fast path triggers on any query containing a run of digits
anywhere (substring search, `GSA` prefix optional): if the first digit
run of the query has value `n` and some indexed unit's metadata code
equals `n`, the identifier regex matches with value `n` and `search`
returns the exact-match formatted result, independent of the retrieval
oracles (no hybrid retrieval is performed). -/
theorem C10_substring_fast_path (M M' : Models) (e : Engine) (vs : VectorStore)
    (bm : BM25Store) (q : String) (n : Nat)
    (hvs : e.vector_store = some vs) (hbm : e.bm25_retriever = some bm)
    (hdig : firstRunVal q.data = some n) (hne : metaHits e n ≠ []) :
    gsaSearch q.data = some n ∧
    search M e q = exactRender ((metaHits e n).take 3) ∧
    search M e q = search M' e q := by
  have hm : gsaSearch q.data = some n := (gsaSearch_eq_firstRunVal q.data).trans hdig
  have h1 := search_fast_path_eq M e vs bm q n hvs hbm hm hne
  have h2 := search_fast_path_eq M' e vs bm q n hvs hbm hm hne
  exact ⟨hm, h1, h1.trans h2.symm⟩

/-- C10 witness: the natural-language query `"total of 14 cattle"`
merely mentions the number 14, yet hits the fast path and returns the
exact-match result for the code-14 record, under any oracles. -/
theorem C10_witness :
    gsaSearch ("total of 14 cattle").data = some 14 ∧
    search emptyModels engine14 "total of 14 cattle" =
      exactRender ((metaHits engine14 14).take 3) ∧
    search emptyModels engine14 "total of 14 cattle" =
      search models8 engine14 "total of 14 cattle" :=
  C10_substring_fast_path emptyModels models8 engine14 vs14 bm14 "total of 14 cattle" 14
    rfl rfl (by decide) (by decide)

/-- C2 counterexample: `build_index` on an empty record set does not
fail with any error - it returns normally with the engine unchanged
except for the cleared document list.  Moreover, rebuilding a previously
built engine with an empty record set leaves the old vector store in
place while emptying the documents, and a subsequent `search` still
operates on that partially reset state (it does not report the engine
uninitialized). -/
theorem C2_counterexample :
    build_index freshEngine [] = freshEngine ∧
    (build_index (build_index freshEngine [row14]) []).documents = [] ∧
    (build_index (build_index freshEngine [row14]) []).vector_store ≠ none ∧
    search emptyModels (build_index (build_index freshEngine [row14]) []) "status"
      ≠ "Error: Index not initialized." := by
  refine ⟨rfl, by decide, by decide, by decide⟩

/-- C2 (amended): on an empty record set `build_index` returns normally
(no `EmptyCorpus` error exists in the code; only a warning is printed):
the documents are cleared and every index field keeps its previous
value.  A fresh engine therefore never becomes ready - if the vector
store was absent, a subsequent `search` returns the not-initialized
error - but a previously built engine keeps its stale index. -/
theorem C2_empty_build (e : Engine) (M : Models) (q : String) :
    (build_index e []).documents = [] ∧
    (build_index e []).vector_store = e.vector_store ∧
    (build_index e []).bm25_retriever = e.bm25_retriever ∧
    (build_index e []).faiss_retriever = e.faiss_retriever ∧
    (e.vector_store = none →
      search M (build_index e []) q = "Error: Index not initialized.") := by
  refine ⟨rfl, rfl, rfl, rfl, ?_⟩
  intro h
  unfold search
  rw [show (build_index e []).vector_store = e.vector_store from rfl, h]

/-- C2 witness: `build_index` of the empty record set on a fresh engine
keeps all fields unready and `search` reports the engine
uninitialized. -/
theorem C2_witness :
    (build_index freshEngine []).documents = [] ∧
    (build_index freshEngine []).vector_store = freshEngine.vector_store ∧
    (build_index freshEngine []).bm25_retriever = freshEngine.bm25_retriever ∧
    (build_index freshEngine []).faiss_retriever = freshEngine.faiss_retriever ∧
    (freshEngine.vector_store = none →
      search emptyModels (build_index freshEngine []) "q" = "Error: Index not initialized.") :=
  C2_empty_build freshEngine emptyModels "q"

/-- C4: round-trip persistence is lossless with respect to search
behaviour in this model (the FAISS native serialization and the pickled
document list are modelled as lossless value transport): building from
any non-trivial record set, saving over any bundle, and loading into a
fresh engine reproduces the built engine exactly, so every query returns
the identical result under the same oracles. -/
theorem C4_round_trip (M : Models) (df : List Row) (b : Bundle) (q : String)
    (h : buildDocs df ≠ []) :
    ∃ e2, load_local freshEngine (save_local (build_index freshEngine df) b) = Except.ok e2 ∧
      e2 = build_index freshEngine df ∧
      search M e2 q = search M (build_index freshEngine df) q := by
  rcases hd : buildDocs df with _ | ⟨d, ds⟩
  · exact absurd hd h
  · have hbuild : build_index freshEngine df =
        { documents := d :: ds
          vector_store := some { corpus := d :: ds }
          bm25_retriever := some { corpus := d :: ds, k := 30 }
          faiss_retriever := some { store := { corpus := d :: ds }, k := 20 } } := by
      unfold build_index
      rw [hd]
      rfl
    refine ⟨build_index freshEngine df, ?_, rfl, rfl⟩
    rw [hbuild]
    rfl

/-- C4 witness: a concrete one-record build, saved over the empty bundle
and reloaded, yields the identical engine and identical search
output. -/
theorem C4_witness :
    ∃ e2, load_local freshEngine (save_local (build_index freshEngine [row14]) emptyBundle) =
        Except.ok e2 ∧
      e2 = build_index freshEngine [row14] ∧
      search emptyModels e2 "where is it" =
        search emptyModels (build_index freshEngine [row14]) "where is it" :=
  C4_round_trip emptyModels [row14] emptyBundle "where is it" (by decide)

/-- C5 counterexample: a record with contact data (both contact name and
phone present) yields exactly one text unit, not the at-least-two the
claim states. -/
theorem C5_counterexample :
    rowContact.Contact_Person.isSome = true ∧
    rowContact.Phone_Number.isSome = true ∧
    (buildDocs [rowContact]).length = 1 :=
  ⟨rfl, rfl, rfl⟩

theorem string_lastChar_append (s t : String) (c : Char)
    (h : t.data.getLast? = some c) : (s ++ t).data.getLast? = some c := by
  rw [String.data_append, List.getLast?_append, h]
  rfl

theorem pageText_lastChar (r : Row) :
    (pageText r).data.getLast? =
      some (if r.Contact_Person.isSome || r.Phone_Number.isSome then '.' else ' ') := by
  by_cases hc : (r.Contact_Person.isSome || r.Phone_Number.isSome) = true
  · rw [pageText, if_pos hc, if_pos hc]
    apply string_lastChar_append
    rw [contactText]
    repeat' apply string_lastChar_append
    rfl
  · rw [pageText, if_neg hc, if_neg hc]
    rw [identityText]
    repeat' apply string_lastChar_append
    rfl

/-- C5 (amended): the narrative builder emits exactly one text unit per
record (in order, with `row_id` the record's position), and that single
unit's text ends with the contact sentence (final character `'.'`)
exactly when a contact name or phone number is present; otherwise it
consists of the identity/location block alone (final character `' '`).
No separate contact text unit exists. -/
theorem C5_one_text_unit_per_record (rows : List Row) :
    (buildDocs rows).length = rows.length ∧
    (∀ i, (buildDocs rows).get? i = (rows.get? i).map (fun r => buildDoc (Int.ofNat i) r)) ∧
    (∀ idx r, ((buildDoc idx r).page_content.data.getLast? = some '.') ↔
      (r.Contact_Person.isSome || r.Phone_Number.isSome) = true) := by
  refine ⟨?_, ?_, ?_⟩
  · rw [buildDocs, List.length_map, List.enum_length]
  · intro i
    rw [buildDocs, List.get?_map, List.get?_enum]
    cases rows.get? i <;> rfl
  · intro idx r
    have h := pageText_lastChar r
    constructor
    · intro hl
      by_contra hc
      rw [if_neg hc] at h
      rw [show (buildDoc idx r).page_content = pageText r from rfl] at hl
      rw [h] at hl
      exact absurd (Option.some.inj hl) (by decide)
    · intro hc
      rw [show (buildDoc idx r).page_content = pageText r from rfl, h, if_pos hc]

/-- C6 counterexample: a bundle whose `documents.pkl` artifact is
missing loads successfully - `load_local` completes with the semantic
index installed and no lexical index, exactly the partial state the
claim says can never arise (a subsequent search then reports the engine
uninitialized rather than failing the load). -/
theorem C6_counterexample :
    bundleNoDocs.documents_pkl = Artifact.missing ∧
    load_local freshEngine bundleNoDocs =
      Except.ok { documents := [], vector_store := some vsX, bm25_retriever := none,
                  faiss_retriever := some { store := vsX, k := 20 } } ∧
    search emptyModels { documents := [], vector_store := some vsX, bm25_retriever := none,
                         faiss_retriever := some { store := vsX, k := 20 } } "q" =
      "Error: Index not initialized." :=
  ⟨rfl, rfl, rfl⟩

/-- C6 (amended): `load_local` fails when the semantic-index artifact
is missing or unreadable (the underlying library raises before the
vector store is assigned), and also when `documents.pkl` is present but
fails to deserialize (`pickle.load` raises at line 156, with the vector
store already installed and the lexical index untouched).  Only a
MISSING `documents.pkl` is tolerated, with a warning: then the load
completes successfully with the semantic index set while documents and
the lexical index keep their previous values, and a search on such an
engine whose lexical index is absent returns the not-initialized
error. -/
theorem C6_load_tolerates_missing_docs (e : Engine) (b : Bundle) (M : Models) (q : String) :
    ((b.faiss = Artifact.missing ∨ b.faiss = Artifact.corrupt) →
      load_local e b = Except.error (LoadError.corruptFaiss, e)) ∧
    (∀ vs, b.faiss = Artifact.stored vs → b.documents_pkl = Artifact.corrupt →
      load_local e b =
        Except.error (LoadError.corruptPickle, { e with vector_store := some vs })) ∧
    (∀ vs, b.faiss = Artifact.stored vs → b.documents_pkl = Artifact.missing →
      load_local e b = Except.ok
        { e with
          vector_store := some vs
          faiss_retriever := some { store := vs, k := 20 } } ∧
      (e.bm25_retriever = none →
        search M
          { e with
            vector_store := some vs
            faiss_retriever := some { store := vs, k := 20 } } q =
          "Error: Index not initialized.")) := by
  refine ⟨?_, ?_, ?_⟩
  · intro h
    rcases h with h | h <;> (unfold load_local; rw [h])
  · intro vs hf hd
    unfold load_local
    rw [hf, hd]
  · intro vs hf hd
    constructor
    · unfold load_local
      rw [hf, hd]
    · intro hbm
      unfold search
      rw [show ({ e with
            vector_store := some vs
            faiss_retriever := some { store := vs, k := 20 } } : Engine).bm25_retriever =
          e.bm25_retriever from rfl, hbm]

/-- C6 witness: with the FAISS artifact missing the load fails; with a
present-but-corrupt `documents.pkl` the load fails with the vector
store already installed; with only the `documents.pkl` artifact missing
it completes successfully in the partial state, on which search reports
the engine uninitialized. -/
theorem C6_witness :
    load_local freshEngine emptyBundle =
      Except.error (LoadError.corruptFaiss, freshEngine) ∧
    load_local freshEngine bundleCorruptDocs =
      Except.error (LoadError.corruptPickle,
        { freshEngine with vector_store := some vsX }) ∧
    load_local freshEngine bundleNoDocs =
      Except.ok
        { freshEngine with
          vector_store := some vsX
          faiss_retriever := some { store := vsX, k := 20 } } ∧
    search emptyModels
      { freshEngine with
        vector_store := some vsX
        faiss_retriever := some { store := vsX, k := 20 } } "q" =
      "Error: Index not initialized." := by
  refine ⟨(C6_load_tolerates_missing_docs freshEngine emptyBundle emptyModels "q").1 (Or.inl rfl),
    (C6_load_tolerates_missing_docs freshEngine bundleCorruptDocs emptyModels "q").2.1 vsX rfl rfl,
    ((C6_load_tolerates_missing_docs freshEngine bundleNoDocs emptyModels "q").2.2 vsX rfl rfl).1,
    ((C6_load_tolerates_missing_docs freshEngine bundleNoDocs emptyModels "q").2.2 vsX rfl rfl).2 rfl⟩

/-- C3 counterexample: three candidates scored -10, -9, -6 (all at or
below the threshold -5, with candidate `C` strictly best); the fallback
returns the first two candidates of the union in retrieval order
(`A`, `B`), not the highest-scoring candidate(s): `C` appears in no
returned variant the claim admits. -/
theorem C3_counterexample :
    search models3 engine3 "q" = renderResults [docA, docB] ∧
    (∀ p ∈ (truncatedCandidates models3 engine3 bm3 "q").zip
        (rerankScores models3 engine3 bm3 "q"), ¬ p.2 > relevanceThreshold) ∧
    models3.crossScore "q" docC.page_content > models3.crossScore "q" docA.page_content ∧
    models3.crossScore "q" docC.page_content > models3.crossScore "q" docB.page_content ∧
    docC ∈ candidateUnion models3 engine3 bm3 "q" ∧
    search models3 engine3 "q" ≠ renderResults [docC] ∧
    search models3 engine3 "q" ≠ renderResults [docC, docB] ∧
    search models3 engine3 "q" ≠ renderResults [docC, docA] := by
  refine ⟨rfl, by decide, by decide, by decide, by decide, by decide, by decide, by decide⟩

/-- C3 (amended): when the deduplicated union is non-empty and no
candidate's re-ranker score exceeds the threshold, `search` returns the
first two candidates of the (truncated) union in retrieval order - a
non-empty result, but not necessarily containing the highest-scoring
candidate. -/
theorem C3_fallback_first_two (M : Models) (e : Engine) (vs : VectorStore) (bm : BM25Store)
    (q : String)
    (hvs : e.vector_store = some vs) (hbm : e.bm25_retriever = some bm)
    (hfp : fastPath e q = none)
    (hne : candidateUnion M e bm q ≠ [])
    (hlow : ∀ p ∈ (truncatedCandidates M e bm q).zip (rerankScores M e bm q),
      ¬ p.2 > relevanceThreshold) :
    search M e q = renderResults ((truncatedCandidates M e bm q).take 2) ∧
    (truncatedCandidates M e bm q).take 2 ≠ [] ∧
    search M e q ≠ "" := by
  have hsurv : thresholdSurvivors M e bm q = [] := by
    unfold thresholdSurvivors
    rw [List.filter_eq_nil]
    intro p hp
    have hp' : p ∈ (truncatedCandidates M e bm q).zip (rerankScores M e bm q) := by
      unfold scoredSorted at hp
      exact (sortByScoreDesc_perm _).mem_iff.mp hp
    simpa using hlow p hp'
  rcases hU : candidateUnion M e bm q with _ | ⟨d0, t0⟩
  · exact absurd hU hne
  have hsearch : search M e q = renderResults ((truncatedCandidates M e bm q).take 2) := by
    rw [search_hybrid_eq M e vs bm q hvs hbm hfp]
    unfold hybridResult
    rw [hU, hsurv]
    rfl
  have htake : (truncatedCandidates M e bm q).take 2 ≠ [] := by
    unfold truncatedCandidates
    rw [hU]
    simp
  refine ⟨hsearch, htake, ?_⟩
  rw [hsearch]
  rcases ht : (truncatedCandidates M e bm q).take 2 with _ | ⟨d1, t1⟩
  · exact absurd ht htake
  · exact renderResults_ne_empty d1 t1

/-- C3 witness: the fallback theorem instantiated at the concrete
all-below-threshold corpus. -/
theorem C3_witness :
    search models3 engine3 "q" =
      renderResults ((truncatedCandidates models3 engine3 bm3 "q").take 2) ∧
    (truncatedCandidates models3 engine3 bm3 "q").take 2 ≠ [] ∧
    search models3 engine3 "q" ≠ "" :=
  C3_fallback_first_two models3 engine3 { corpus := [docA, docB, docC] } bm3 "q" rfl rfl
    (by decide) (by decide) (by decide)

/-- C7 counterexample: with a deduplicated union of 21 distinct
candidates, only 20 pairs reach the re-ranker; the 21st candidate is a
deduplicated candidate that is dropped before re-ranking. -/
theorem C7_counterexample :
    (candidateUnion models21 engine21 bm21 "q").length = 21 ∧
    (rerankInput models21 engine21 bm21 "q").length = 20 ∧
    testDocN 20 ∈ candidateUnion models21 engine21 bm21 "q" ∧
    ("q", (testDocN 20).page_content) ∉ rerankInput models21 engine21 bm21 "q" := by
  refine ⟨rfl, rfl, by decide, by decide⟩

/-- C7 (amended): a deduplicated candidate is scored by the re-ranker
exactly when it is among the first 20 candidates of the deduplicated
union; candidates beyond the truncation bound are dropped before
re-ranking. -/
theorem C7_rerank_truncation (M : Models) (e : Engine) (bm : BM25Store) (q : String) (d : Doc)
    (hd : d ∈ candidateUnion M e bm q) :
    ((q, d.page_content) ∈ rerankInput M e bm q ↔ d ∈ truncatedCandidates M e bm q) := by
  constructor
  · intro h
    unfold rerankInput at h
    rcases List.mem_map.mp h with ⟨d', hd', he⟩
    have hc : d'.page_content = d.page_content := congrArg Prod.snd he
    have hd'U : d' ∈ candidateUnion M e bm q :=
      List.mem_of_mem_take (show d' ∈ (candidateUnion M e bm q).take 20 from hd')
    have hpw : (candidateUnion M e bm q).Pairwise
        (fun a b => a.page_content ≠ b.page_content) := by
      unfold candidateUnion dedupByContent
      exact dedupAux_pairwise [] _
    have hdd : d' = d :=
      @eq_of_pairwise_map_ne Doc String (fun x => x.page_content)
        (candidateUnion M e bm q) hpw d' hd'U d hd hc
    exact hdd ▸ hd'
  · intro h
    exact List.mem_map_of_mem _ h

/-- C7 witness: the first candidate of the 21-unit corpus is both in the
first 20 and among the re-ranked pairs. -/
theorem C7_witness :
    ("q", (testDocN 0).page_content) ∈ rerankInput models21 engine21 bm21 "q" ↔
      testDocN 0 ∈ truncatedCandidates models21 engine21 bm21 "q" :=
  C7_rerank_truncation models21 engine21 bm21 "q" (testDocN 0) (by decide)

/-- C8: under the hybrid path with at least one candidate above the
threshold, `search` renders the threshold survivors in sorted order;
the displayed selection (capped at 5 inside `renderResults`) keeps only
candidates strictly above the threshold, is ordered by non-increasing
re-ranker score, has at most 5 entries, and - provided the indexed
documents carry pairwise distinct record identifiers and both hit lists
draw from the indexed documents - contains at most one entry per
underlying record. -/
theorem C8_selection (M : Models) (e : Engine) (vs : VectorStore) (bm : BM25Store)
    (q : String)
    (hvs : e.vector_store = some vs) (hbm : e.bm25_retriever = some bm)
    (hfp : fastPath e q = none)
    (hdocs : e.documents.Pairwise (fun a b => a.row_id ≠ b.row_id))
    (hb : ∀ d ∈ M.bm25Invoke bm q, d ∈ e.documents)
    (hf : ∀ d ∈ faissHits M e q, d ∈ e.documents)
    (hsurv : thresholdSurvivors M e bm q ≠ []) :
    search M e q = renderResults ((thresholdSurvivors M e bm q).map Prod.fst) ∧
    ((thresholdSurvivors M e bm q).take 5).length ≤ 5 ∧
    (∀ p ∈ (thresholdSurvivors M e bm q).take 5, p.2 > relevanceThreshold) ∧
    ((thresholdSurvivors M e bm q).take 5).Pairwise (fun a b => b.2 ≤ a.2) ∧
    (((thresholdSurvivors M e bm q).take 5).map Prod.fst).Pairwise
      (fun a b => a.row_id ≠ b.row_id) := by
  have hUne : candidateUnion M e bm q ≠ [] := by
    intro h0
    apply hsurv
    unfold thresholdSurvivors scoredSorted truncatedCandidates
    rw [h0]
    rfl
  rcases hU : candidateUnion M e bm q with _ | ⟨d0, t0⟩
  · exact absurd hU hUne
  rcases hS : thresholdSurvivors M e bm q with _ | ⟨p0, ps⟩
  · exact absurd hS hsurv
  rw [← hS]
  have hsearch : search M e q = renderResults ((thresholdSurvivors M e bm q).map Prod.fst) := by
    rw [search_hybrid_eq M e vs bm q hvs hbm hfp]
    unfold hybridResult
    rw [hU, hS]
    rfl
  have hlen : ((thresholdSurvivors M e bm q).take 5).length ≤ 5 := by
    rw [List.length_take]
    exact min_le_left _ _
  have hthresh : ∀ p ∈ (thresholdSurvivors M e bm q).take 5, p.2 > relevanceThreshold := by
    intro p hp
    have hp' := List.mem_of_mem_take hp
    unfold thresholdSurvivors at hp'
    have hfp' := List.mem_filter.mp hp'
    exact of_decide_eq_true hfp'.2
  have hsorted : ((thresholdSurvivors M e bm q).take 5).Pairwise (fun a b => b.2 ≤ a.2) := by
    have h1 : (scoredSorted M e bm q).Pairwise (fun a b => b.2 ≤ a.2) := by
      unfold scoredSorted
      exact sortByScoreDesc_pairwise _
    have h2 : (thresholdSurvivors M e bm q).Pairwise (fun a b => b.2 ≤ a.2) := by
      unfold thresholdSurvivors
      exact List.Pairwise.sublist (List.filter_sublist _) h1
    exact List.Pairwise.sublist (List.take_sublist _ _) h2
  have hUdocs : ∀ x ∈ candidateUnion M e bm q, x ∈ e.documents := by
    intro x hx
    have hx' : x ∈ M.bm25Invoke bm q ++ faissHits M e q := by
      unfold candidateUnion dedupByContent at hx
      exact dedupAux_subset hx
    rcases List.mem_append.mp hx' with h | h
    · exact hb x h
    · exact hf x h
  have hUpc : (candidateUnion M e bm q).Pairwise
      (fun a b => a.page_content ≠ b.page_content) := by
    unfold candidateUnion dedupByContent
    exact dedupAux_pairwise [] _
  have hUrow : (candidateUnion M e bm q).Pairwise (fun a b => a.row_id ≠ b.row_id) := by
    refine List.Pairwise.imp_of_mem ?_ hUpc
    intro a b ha hbb hpc heq
    exact hpc (congrArg Doc.page_content
      (@eq_of_pairwise_map_ne Doc Int Doc.row_id e.documents hdocs a (hUdocs a ha) b
        (hUdocs b hbb) heq))
  have htrunc_row : (truncatedCandidates M e bm q).Pairwise
      (fun a b => a.row_id ≠ b.row_id) := by
    unfold truncatedCandidates
    exact List.Pairwise.sublist (List.take_sublist _ _) hUrow
  have hzip : ((truncatedCandidates M e bm q).zip (rerankScores M e bm q)).Pairwise
      (fun p p' => p.1.row_id ≠ p'.1.row_id) :=
    pairwise_zip_fst _ _ htrunc_row
  have hsymm : Symmetric (fun p p' : Doc × Rat => p.1.row_id ≠ p'.1.row_id) := by
    intro x y h
    exact h.symm
  have hsort_row : (scoredSorted M e bm q).Pairwise
      (fun p p' => p.1.row_id ≠ p'.1.row_id) := by
    unfold scoredSorted
    exact ((sortByScoreDesc_perm _).pairwise_iff (fun h => h.symm)).mpr hzip
  have hfilter_row : (thresholdSurvivors M e bm q).Pairwise
      (fun p p' => p.1.row_id ≠ p'.1.row_id) := by
    unfold thresholdSurvivors
    exact List.Pairwise.sublist (List.filter_sublist _) hsort_row
  have htake_row : ((thresholdSurvivors M e bm q).take 5).Pairwise
      (fun p p' => p.1.row_id ≠ p'.1.row_id) :=
    List.Pairwise.sublist (List.take_sublist _ _) hfilter_row
  have hmap_row : (((thresholdSurvivors M e bm q).take 5).map Prod.fst).Pairwise
      (fun a b => a.row_id ≠ b.row_id) := by
    rw [List.pairwise_map]
    exact htake_row
  exact ⟨hsearch, hlen, hthresh, hsorted, hmap_row⟩

/-- C8 witness: the selection theorem instantiated at a two-record
corpus with above-threshold scores. -/
theorem C8_witness :
    search models8 engine8 "hello" =
      renderResults ((thresholdSurvivors models8 engine8 bm8 "hello").map Prod.fst) ∧
    (((thresholdSurvivors models8 engine8 bm8 "hello").take 5).map Prod.fst).Pairwise
      (fun a b => a.row_id ≠ b.row_id) := by
  have h := C8_selection models8 engine8 { corpus := [docA, docB] } bm8 "hello" rfl rfl
    (by decide) (by decide) (by decide) (by decide) (by decide)
  exact ⟨h.1, h.2.2.2.2⟩

/-- C5 witness: the per-record theorem instantiated at a concrete
two-record set, one record with contact data. -/
theorem C5_witness :
    (buildDocs [rowContact, row14]).length = 2 ∧
    (((buildDoc 0 rowContact).page_content.data.getLast? = some '.') ↔
      (rowContact.Contact_Person.isSome || rowContact.Phone_Number.isSome) = true) := by
  have h := C5_one_text_unit_per_record [rowContact, row14]
  exact ⟨h.1, h.2.2 0 rowContact⟩

/-- C9 witness: the characterisation instantiated at the dotted-prefix
raw code `"G.S.A 0014"`. -/
theorem C9_witness :
    _normalize_regno "G.S.A 0014" =
      (if ("G.S.A 0014" : String) = "" then (none, none)
       else
         match firstRunVal (pystrip "G.S.A 0014").data with
         | some n => (some ("GSA-" ++ toString n), some (n : Int))
         | none => (some (pystrip "G.S.A 0014"), none)) :=
  C9_normalize_characterisation "G.S.A 0014"
